import Mathlib

/-!
Shallow embedding of `src/bot.py` (a Telegram channel-manager bot with an
owner/admin role system, a mandatory-join gate and free/paid channel
catalogues) and verification of the specification claims about it.

Modelling conventions:
* Python ints are Lean `Int` (arbitrary precision in both).
* Python dicts (insertion-ordered) are association lists `List (Int × α)`
  with the dict operations used by the source (`dictSet`, `dictPop`, ...).
* The Python `set` of blocked ids is a duplicate-free `List Int` with
  membership-based operations (`pySetAdd`, `pySetRemove`, `pySetOfList`).
* Outbound platform calls made by a handler are recorded in order in an
  effect list `List Eff`; oracle functions decide whether a given outbound
  call raises, mirroring the `try/except` structure of the source.
* `str`/`int` conversions are modelled by `pyStrInt` / `pyIntOfStr?`
  (decimal rendering, and parsing of an optionally signed decimal string
  with surrounding whitespace, as CPython does for the values involved).
* Button grids (reply markup) are not modelled; only message texts and a
  join-button url are recorded, since no claim concerns keyboard layout.
-/

namespace Bot

/-! ## Python decimal string conversions (`str(i)` and `int(s)`). -/

/-- The decimal digit character for `d < 10`. -/
def digitChar (d : Nat) : Char := Char.ofNat (48 + d)

/-- Parse one decimal digit character. -/
def charDigit? (c : Char) : Option Nat :=
  if 48 ≤ c.toNat ∧ c.toNat ≤ 57 then some (c.toNat - 48) else none

/-- Fuel-driven most-significant-first decimal digit expansion. -/
def natDigitsAux : Nat → Nat → List Nat
  | 0, _ => []
  | fuel + 1, n => if n < 10 then [n] else natDigitsAux fuel (n / 10) ++ [n % 10]

/-- Decimal digits of `n`, most significant first (`0` renders as `[0]`). -/
def natDigits (n : Nat) : List Nat := natDigitsAux (n + 1) n

/-- Value of a most-significant-first digit list. -/
def digitsVal (ds : List Nat) : Nat := ds.foldl (fun a d => a * 10 + d) 0

/-- Accumulating decimal parser over characters; fails on a non-digit. -/
def parseDigitsAux : List Char → Nat → Option Nat
  | [], acc => some acc
  | c :: rest, acc =>
    match charDigit? c with
    | none => none
    | some d => parseDigitsAux rest (acc * 10 + d)

/-- Parse a non-empty all-digit character list. -/
def parseDigits (cs : List Char) : Option Nat :=
  if cs.isEmpty then none else parseDigitsAux cs 0

/-- Strip leading and trailing whitespace, as `int(...)` tolerates. -/
def stripSpaces (l : List Char) : List Char :=
  ((l.dropWhile Char.isWhitespace).reverse.dropWhile Char.isWhitespace).reverse

/-- Python `str(n)` for a natural number. -/
def pyStrNat (n : Nat) : String := String.mk ((natDigits n).map digitChar)

/-- Python `str(i)` for an int (decimal, `-` sign for negatives). -/
def pyStrInt (i : Int) : String :=
  if i < 0 then String.mk ('-' :: (natDigits i.natAbs).map digitChar)
  else String.mk ((natDigits i.toNat).map digitChar)

/-- Sign-and-digits parse of an already-stripped character list. -/
def pyIntParse (cs : List Char) : Option Int :=
  if cs.isEmpty then none
  else if cs.headD ' ' = '-' then (parseDigits cs.tail).map (fun n => -(n : Int))
  else if cs.headD ' ' = '+' then (parseDigits cs.tail).map (fun n => (n : Int))
  else (parseDigits cs).map (fun n => (n : Int))

/-- Python `int(s)`: `none` models a raised `ValueError`. -/
def pyIntOfStr? (s : String) : Option Int := pyIntParse (stripSpaces s.data)

/-- Python `s.startswith(p)`. -/
def pyStartsWith (s p : String) : Bool := p.data.isPrefixOf s.data

/-! ### Round-trip lemmas for the decimal conversions. -/

theorem digitsVal_append (ds : List Nat) (d : Nat) :
    digitsVal (ds ++ [d]) = digitsVal ds * 10 + d := by
  simp [digitsVal, List.foldl_append]

theorem natDigitsAux_val : ∀ fuel n, n < fuel → digitsVal (natDigitsAux fuel n) = n := by
  intro fuel
  induction fuel with
  | zero => intro n h; omega
  | succ f ih =>
    intro n h
    unfold natDigitsAux
    split
    · simp [digitsVal]
    · rename_i h10
      have hlt : n / 10 < n := Nat.div_lt_self (by omega) (by omega)
      rw [digitsVal_append, ih (n / 10) (by omega)]
      omega

theorem natDigits_val (n : Nat) : digitsVal (natDigits n) = n :=
  natDigitsAux_val _ _ (by omega)

theorem natDigitsAux_lt : ∀ fuel n, ∀ d ∈ natDigitsAux fuel n, d < 10 := by
  intro fuel
  induction fuel with
  | zero => intro n d hd; simp [natDigitsAux] at hd
  | succ f ih =>
    intro n d hd
    unfold natDigitsAux at hd
    split at hd
    · simp at hd; omega
    · rcases List.mem_append.1 hd with h1 | h2
      · exact ih _ _ h1
      · simp at h2; omega

theorem natDigits_lt (n : Nat) : ∀ d ∈ natDigits n, d < 10 :=
  natDigitsAux_lt _ _

theorem natDigitsAux_ne_nil : ∀ fuel n, 0 < fuel → natDigitsAux fuel n ≠ [] := by
  intro fuel n h
  cases fuel with
  | zero => omega
  | succ f => unfold natDigitsAux; split <;> simp

theorem natDigits_ne_nil (n : Nat) : natDigits n ≠ [] :=
  natDigitsAux_ne_nil _ _ (by omega)

theorem charDigit?_digitChar : ∀ d, d < 10 → charDigit? (digitChar d) = some d := by
  decide

theorem digitChar_not_space : ∀ d, d < 10 → (digitChar d).isWhitespace = false := by
  decide

theorem digitChar_ne_minus : ∀ d, d < 10 → digitChar d ≠ '-' := by decide

theorem digitChar_ne_plus : ∀ d, d < 10 → digitChar d ≠ '+' := by decide

theorem parseDigitsAux_map_digitChar :
    ∀ ds : List Nat, ∀ acc, (∀ d ∈ ds, d < 10) →
      parseDigitsAux (ds.map digitChar) acc = some (ds.foldl (fun a d => a * 10 + d) acc) := by
  intro ds
  induction ds with
  | nil => intro acc _; rfl
  | cons d rest ih =>
    intro acc h
    simp only [List.map_cons, parseDigitsAux, charDigit?_digitChar d (h d (by simp)),
      List.foldl_cons]
    exact ih _ (fun x hx => h x (by simp [hx]))

theorem parseDigits_natDigits (n : Nat) :
    parseDigits ((natDigits n).map digitChar) = some n := by
  have hne : (natDigits n).map digitChar ≠ [] := by
    simpa using natDigits_ne_nil n
  rw [parseDigits, if_neg (by simpa [List.isEmpty_iff] using hne)]
  rw [parseDigitsAux_map_digitChar _ _ (natDigits_lt n)]
  exact congrArg some (natDigits_val n)

theorem dropWhile_of_forall_false {α} (p : α → Bool) (l : List α)
    (h : ∀ a ∈ l, p a = false) : l.dropWhile p = l := by
  cases l with
  | nil => rfl
  | cons a t => rw [List.dropWhile_cons, h a (by simp)]; simp

theorem stripSpaces_of_no_space (l : List Char)
    (h : ∀ c ∈ l, c.isWhitespace = false) : stripSpaces l = l := by
  unfold stripSpaces
  rw [dropWhile_of_forall_false _ _ h,
    dropWhile_of_forall_false _ _ (fun c hc => h c (List.mem_reverse.1 hc)),
    List.reverse_reverse]

theorem pyIntParse_neg_digits (m : Nat) :
    pyIntParse ('-' :: (natDigits m).map digitChar) = some (-(m : Int)) := by
  rw [pyIntParse]
  rw [if_neg (by simp), if_pos (by simp), List.tail_cons, parseDigits_natDigits]
  rfl

theorem pyIntParse_digits (m : Nat) :
    pyIntParse ((natDigits m).map digitChar) = some (m : Int) := by
  obtain ⟨d, rest, hcons⟩ : ∃ d rest, natDigits m = d :: rest := by
    cases h : natDigits m with
    | nil => exact absurd h (natDigits_ne_nil _)
    | cons d rest => exact ⟨d, rest, rfl⟩
  have hd10 : d < 10 := natDigits_lt _ d (by rw [hcons]; simp)
  rw [pyIntParse, hcons]
  rw [if_neg (by simp), List.map_cons, List.headD_cons,
    if_neg (by simpa using digitChar_ne_minus d hd10),
    if_neg (by simpa using digitChar_ne_plus d hd10)]
  rw [show digitChar d :: rest.map digitChar = (d :: rest).map digitChar from rfl,
    ← hcons, parseDigits_natDigits]
  rfl

theorem pyIntOfStr?_pyStrInt (i : Int) : pyIntOfStr? (pyStrInt i) = some i := by
  by_cases hi : i < 0
  · rw [pyStrInt, if_pos hi, pyIntOfStr?]
    have hdata : (String.mk ('-' :: (natDigits i.natAbs).map digitChar)).data
        = '-' :: (natDigits i.natAbs).map digitChar := rfl
    rw [hdata]
    rw [stripSpaces_of_no_space _ (by
      intro c hc
      rcases List.mem_cons.1 hc with h1 | h2
      · subst h1; decide
      · rcases List.mem_map.1 h2 with ⟨d, hd, rfl⟩
        exact digitChar_not_space d (natDigits_lt _ d hd))]
    rw [pyIntParse_neg_digits]
    exact congrArg some (by omega)
  · rw [pyStrInt, if_neg hi, pyIntOfStr?]
    have hdata : (String.mk ((natDigits i.toNat).map digitChar)).data
        = (natDigits i.toNat).map digitChar := rfl
    rw [hdata]
    rw [stripSpaces_of_no_space _ (by
      intro c hc
      rcases List.mem_map.1 hc with ⟨d, hd, rfl⟩
      exact digitChar_not_space d (natDigits_lt _ d hd))]
    rw [pyIntParse_digits]
    exact congrArg some (by omega)

/-! ## Python dict and set operations over association lists. -/

/-- `k in d` for a dict. -/
def dictHasKey (d : List (Int × α)) (k : Int) : Bool := d.any (fun p => p.1 = k)

/-- `d.get(k)` / `d[k]` lookup. -/
def dictGet? (d : List (Int × α)) (k : Int) : Option α :=
  (d.find? (fun p => p.1 = k)).map (fun p => p.2)

/-- `d[k] = v`: update in place when the key exists, else append (Python
dicts preserve insertion order). -/
def dictSet (d : List (Int × α)) (k : Int) (v : α) : List (Int × α) :=
  if dictHasKey d k then d.map (fun p => if p.1 = k then (k, v) else p)
  else d ++ [(k, v)]

/-- `d.pop(k, ...)`: remove the key (keys are unique in a real dict). -/
def dictPop (d : List (Int × α)) (k : Int) : List (Int × α) :=
  d.filter (fun p => p.1 ≠ k)

/-- `list(d.keys())` in insertion order. -/
def dictKeys (d : List (Int × α)) : List Int := d.map (fun p => p.1)

/-- `s.add(x)` on a Python set (duplicate-free list model). -/
def pySetAdd (s : List Int) (x : Int) : List Int :=
  if x ∈ s then s else s ++ [x]

/-- `s.remove(x)` on a Python set (call sites guard membership first). -/
def pySetRemove (s : List Int) (x : Int) : List Int := s.filter (fun y => y ≠ x)

/-- `set(l)`: deduplicate, keeping first occurrences. -/
def pySetOfList (l : List Int) : List Int := l.foldl pySetAdd []

theorem dictHasKey_dictSet (d : List (Int × α)) (k : Int) (v : α) :
    dictHasKey (dictSet d k v) k = true := by
  rw [dictSet]
  split
  · rename_i h
    rw [dictHasKey, List.any_eq_true] at h ⊢
    obtain ⟨p, hp, hpk⟩ := h
    exact ⟨(k, v), List.mem_map.2 ⟨p, hp, by rw [if_pos (of_decide_eq_true hpk)]⟩, by simp⟩
  · rw [dictHasKey, List.any_eq_true]
    exact ⟨(k, v), by simp, by simp⟩

theorem pySetOfList_aux (l : List Int) :
    ∀ acc : List Int, (acc ++ l).Nodup → l.foldl pySetAdd acc = acc ++ l := by
  induction l with
  | nil => intro acc _; simp
  | cons x rest ih =>
    intro acc hnodup
    have hx : x ∉ acc := by
      intro hmem
      exact (List.nodup_append.1 hnodup).2.2 hmem (by simp)
    rw [List.foldl_cons, pySetAdd, if_neg hx, ih (acc ++ [x]) (by simpa using hnodup)]
    simp

theorem pySetOfList_nodup (l : List Int) (h : l.Nodup) : pySetOfList l = l := by
  have := pySetOfList_aux l [] (by simpa using h)
  simpa [pySetOfList] using this

/-! ## Data model. -/

/-- Status values returned by the platform's membership lookup. -/
inductive MemberStatus where
  | owner | administrator | member | restricted | left | banned
deriving DecidableEq, Repr

/-- A `USER_DATA` entry: display name and handle. -/
structure UserInfo where
  fullName : String
  username : Option String
deriving DecidableEq, Repr

/-- The sender of an inbound event. -/
structure TgUser where
  id : Int
  firstName : String
  fullName : String
  username : Option String
deriving DecidableEq, Repr

/-- The module-level mutable globals of `bot.py`, plus the two config ids
they are checked against (`OWNER_ID`, `MANDATORY_CHANNEL_ID`). -/
structure GState where
  ownerId : Int
  mandatoryChannelId : Int
  adminIds : List Int
  freeChannels : List (Int × String)
  freeChannelLinks : List (Int × String)
  paidChannels : List String
  blockedUserIds : List Int
  activeChats : List (Int × String)
  userData : List (Int × UserInfo)
deriving DecidableEq, Repr

/-- The pending-step markers stored in `context.user_data['next_step']`. -/
inductive Step where
  | awaitingBroadcastMessage
  | awaitingPostMessage
  | awaitingAddAdminId
  | awaitingRemoveAdminId
  | awaitingBlockUserId
  | awaitingUnblockUserId
  | awaitingFreeChannelName
  | awaitingFreeChannelLink
  | awaitingFreeChannelChatId
  | awaitingRemoveFreeChannelNum
  | awaitingPaidChannelName
  | awaitingPaidChannelLink
  | awaitingRemovePaidChannelNum
deriving DecidableEq, Repr

/-- One user's `context.user_data` slots used by the wizards. -/
structure UserCtx where
  nextStep : Option Step
  newChannelName : Option String
  newChannelLink : Option String
deriving DecidableEq, Repr

/-- Outbound platform calls and the snapshot write, recorded in program
order.  `sendMessage` carries the optional join-button url; other keyboard
layout is not modelled. -/
inductive Eff where
  | replyText (msg : String)
  | replyHtml (msg : String)
  | answerCb (msg : String) (alert : Bool)
  | editMessage (msg : String)
  | sendMessage (chatId : Int) (msg : String) (buttonUrl : Option String)
  | deleteMessage
  | banChatMember (chatId : Int) (userId : Int)
  | unbanChatMember (chatId : Int) (userId : Int)
  | getChatMember (chatId : Int) (userId : Int)
  | leaveChat (chatId : Int)
  | saveSnapshot
deriving DecidableEq, Repr

/-- The spec's permission classification. -/
inductive Perm where
  | owner | admin | regular
deriving DecidableEq, Repr

/-- Chat types distinguished by `/id`. -/
inductive PyChatType where
  | private_ | group | supergroup | channel
deriving DecidableEq, Repr

/-- `chat.type.capitalize()` as used by `/id`. -/
def chatTypeCap : PyChatType → String
  | .private_ => "Private"
  | .group => "Group"
  | .supergroup => "Supergroup"
  | .channel => "Channel"

/-! ## Permission checks and helper functions (`bot.py` lines 127-152). -/

/-- `is_owner` (line 128). -/
def isOwner (g : GState) (userId : Int) : Bool := userId = g.ownerId

/-- `is_admin` (line 129). -/
def isAdmin (g : GState) (userId : Int) : Bool := userId ∈ g.adminIds

/-- The spec's `classify`, assembled from `is_owner` / `is_admin` in the
order every handler consults them (owner first). -/
def classify (g : GState) (userId : Int) : Perm :=
  if isOwner g userId then .owner
  else if isAdmin g userId then .admin
  else .regular

/-- Module init lines 79-81: append the owner to the admin list when the
owner id is truthy (non-zero) and not already present. -/
def initAdminIds (ownerId : Int) (envAdminIds : List Int) : List Int :=
  if ownerId ≠ 0 ∧ ownerId ∉ envAdminIds then envAdminIds ++ [ownerId]
  else envAdminIds

/-- Membership-lookup oracle: `get_chat_member(chat, user)` returning the
status, or `none` when the call raises. -/
def MemOracle := Int → Int → Option MemberStatus

/-- `is_user_member_of_channel` (lines 133-140): the returned Bool plus the
external calls issued. -/
def isUserMemberOfChannel (mem : MemOracle) (g : GState) (userId : Int) :
    Bool × List Eff :=
  if isAdmin g userId then (true, [])
  else
    match mem g.mandatoryChannelId userId with
    | some st =>
      (st = .owner ∨ st = .administrator ∨ st = .member,
        [Eff.getChatMember g.mandatoryChannelId userId])
    | none => (false, [Eff.getChatMember g.mandatoryChannelId userId])

/-- One iteration of the kick loop (lines 146-152): the ban is always
attempted; the unban is attempted only when the ban did not raise (the
`except` skips the rest of that iteration); an unban failure is likewise
caught and affects nothing further. -/
def kickFromChannel (banOk : Int → Int → Bool) (ch userId : Int) : List Eff :=
  if banOk ch userId then
    [Eff.banChatMember ch userId, Eff.unbanChatMember ch userId]
  else [Eff.banChatMember ch userId]

/-- `remove_user_from_free_channels` (lines 142-152). -/
def removeUserFromFreeChannels (banOk : Int → Int → Bool) (g : GState)
    (userId : Int) : List Eff :=
  if isAdmin g userId then []
  else (dictKeys g.freeChannels).flatMap (fun ch => kickFromChannel banOk ch userId)

/-! ## Persistence (`save_data` / `load_data`, lines 89-125).

`json.dump` turns the integer dict keys into their decimal strings;
`load_data` converts them back with `int(k)`.  `SnapshotData` is the parsed
content of the JSON file; an absent key is `none` (`data.get` defaults). -/

/-- The persisted snapshot file, field by field as `save_data` writes it.
No user-directory field exists: `save_data` does not write `USER_DATA`. -/
structure SnapshotData where
  adminIds : Option (List Int)
  freeChannels : Option (List (String × String))
  freeChannelLinks : Option (List (String × String))
  paidChannels : Option (List String)
  blockedUserIds : Option (List Int)
  activeChats : Option (List (String × String))
deriving DecidableEq, Repr

/-- JSON serialisation of a dict with int keys: keys become strings. -/
def dumpKeys (d : List (Int × String)) : List (String × String) :=
  d.map (fun p => (pyStrInt p.1, p.2))

/-- `{int(k): v for k, v in d.items()}`: `none` when some `int(k)` raises. -/
def parseKeys : List (String × String) → Option (List (Int × String))
  | [] => some []
  | p :: rest =>
    match pyIntOfStr? p.1 with
    | none => none
    | some k => (parseKeys rest).map (fun r => (k, p.2) :: r)

/-- `save_data` (lines 89-106): the snapshot written for the current state.
The write replaces the whole file; `USER_DATA` is not included. -/
def saveData (g : GState) : SnapshotData :=
  { adminIds := some g.adminIds,
    freeChannels := some (dumpKeys g.freeChannels),
    freeChannelLinks := some (dumpKeys g.freeChannelLinks),
    paidChannels := some g.paidChannels,
    blockedUserIds := some g.blockedUserIds,
    activeChats := some (dumpKeys g.activeChats) }

/-- `load_data` (lines 108-125) applied to parsed file content `d` in
process state `g`.  The global assignments run in source order; if an
`int(k)` key conversion raises, the `except` swallows the error and the
remaining assignments are skipped, keeping the earlier ones. -/
def loadData (d : SnapshotData) (g : GState) : GState :=
  let a1 := d.adminIds.getD g.adminIds
  match parseKeys (d.freeChannels.getD []) with
  | none => { g with adminIds := a1 }
  | some fc =>
    match parseKeys (d.freeChannelLinks.getD []) with
    | none => { g with adminIds := a1, freeChannels := fc }
    | some fl =>
      let pc := d.paidChannels.getD []
      let bl := pySetOfList (d.blockedUserIds.getD [])
      match parseKeys (d.activeChats.getD []) with
      | none =>
        { g with adminIds := a1, freeChannels := fc, freeChannelLinks := fl,
                 paidChannels := pc, blockedUserIds := bl }
      | some ac =>
        { g with adminIds := a1, freeChannels := fc, freeChannelLinks := fl,
                 paidChannels := pc, blockedUserIds := bl, activeChats := ac }

theorem parseKeys_dumpKeys (d : List (Int × String)) :
    parseKeys (dumpKeys d) = some d := by
  induction d with
  | nil => rfl
  | cons p rest ih =>
    rw [dumpKeys, List.map_cons, parseKeys, pyIntOfStr?_pyStrInt]
    rw [dumpKeys] at ih
    simp [ih]

/-! ## Command handlers. -/

/-- Message texts used verbatim by the handlers. -/
def msgOwnerMenu : String := "नमस्ते, मालिक! कृपया एक विकल्प चुनें:"

def msgAdminMenu : String := "नमस्ते, एडमिन! कृपया एक विकल्प चुनें:"

def memberMenuText (firstName : String) : String :=
  "नमस्ते, " ++ firstName ++ "! आपका स्वागत है।"

def welcomeHtml (firstName : String) : String :=
  "<b>WELCOME TO H4R BATCH BOT</b>\n\nनमस्ते, " ++ firstName ++ "!\n\n"
    ++ "<b>चेतावनी:</b> यदि आप इस बॉट को ब्लॉक करते हैं या मुख्य चैनल को छोड़ देते हैं, तो आपको सभी फ्री चैनलों से हटा दिया जाएगा।\n\n"
    ++ "बॉट का उपयोग करने के लिए कृपया चैनल ज्वाइन करें और फिर \x27मैंने ज्वाइन कर लिया है\x27 बटन दबाएं।"

/-- `start_command` (lines 204-233).  The block check comes first; the
`USER_DATA` upsert precedes the role and membership checks. -/
def startCommand (mem : MemOracle) (banOk : Int → Int → Bool) (g : GState)
    (u : TgUser) : GState × List Eff :=
  if u.id ∈ g.blockedUserIds then (g, [])
  else
    let g1 := { g with userData := dictSet g.userData u.id ⟨u.fullName, u.username⟩ }
    if isOwner g1 u.id then (g1, [Eff.replyText msgOwnerMenu])
    else if isAdmin g1 u.id then (g1, [Eff.replyText msgAdminMenu])
    else
      let r := isUserMemberOfChannel mem g1 u.id
      if r.1 then (g1, r.2 ++ [Eff.replyText (memberMenuText u.firstName)])
      else
        let kickEffs :=
          if dictHasKey g1.userData u.id then removeUserFromFreeChannels banOk g1 u.id
          else []
        (g1, r.2 ++ kickEffs ++ [Eff.replyHtml (welcomeHtml u.firstName)])

def msgHelpAdmin : String :=
  "नमस्ते! सभी प्रबंधन विकल्पों के लिए कृपया /start कमांड का उपयोग करके बटन वाला मेनू खोलें।"

def msgHelpMember : String :=
  "नमस्ते! आप हमारे सदस्य हैं। चैनलों की सूची देखने के लिए /start कमांड का उपयोग करके मेनू खोल सकते हैं।"

def msgHelpNonMember : String :=
  "नमस्ते! इस बॉट का उपयोग करने के लिए, कृपया पहले अनिवार्य चैनल ज्वाइन करें। आप /start कमांड से ज्वाइन लिंक प्राप्त कर सकते हैं।"

/-- `help_command` (lines 235-248). -/
def helpCommand (mem : MemOracle) (g : GState) (userId : Int) : List Eff :=
  if userId ∈ g.blockedUserIds then []
  else if isAdmin g userId then [Eff.replyText msgHelpAdmin]
  else
    let r := isUserMemberOfChannel mem g userId
    r.2 ++ [Eff.replyText (if r.1 then msgHelpMember else msgHelpNonMember)]

/-- `id_command` (lines 250-259).  Note: it performs no block check and
reads none of the dynamic state. -/
def idCommand (_g : GState) (chatType : PyChatType) (chatId userId : Int) :
    List Eff :=
  if chatType = .private_ then
    [Eff.replyHtml ("Aapki User ID hai: <code>" ++ pyStrInt userId
      ++ "</code>\n(Click karke copy karein)")]
  else
    [Eff.replyHtml ("Is " ++ chatTypeCap chatType ++ " ki Chat ID hai: <code>"
      ++ pyStrInt chatId ++ "</code>\n(Click karke copy karein)")]

/-! ## Python string splitting used by the callback handlers. -/

/-- Fuel-driven worker for Python `s.split(sep)` with a non-empty `sep`. -/
def pySplitAux : Nat → List Char → List Char → List Char → List (List Char)
  | 0, _, acc, s => [acc.reverse ++ s]
  | fuel + 1, sep, acc, s =>
    if sep.isPrefixOf s then acc.reverse :: pySplitAux fuel sep [] (s.drop sep.length)
    else
      match s with
      | [] => [acc.reverse]
      | c :: rest => pySplitAux fuel sep (c :: acc) rest

/-- Python `s.split(sep)` for a non-empty separator. -/
def pySplit (sep s : String) : List String :=
  (pySplitAux (s.data.length + 1) sep.data [] s.data).map String.mk

/-- `s.split('_')[-1]`: the segment after the last underscore (the whole
string when no underscore occurs). -/
def lastUnderscoreSeg (s : String) : String :=
  String.mk ((s.data.reverse.takeWhile (fun c => c ≠ '_')).reverse)

/-- Python truthiness of an optional string (`None` and `""` are falsy). -/
def pyTruthy : Option String → Bool
  | none => false
  | some s => ¬ s.isEmpty

/-! ## `button_handler` (lines 261-513). -/

/-- The `prompts` table of the `ask_` branch (lines 347-358):
action suffix, prompt text, pending-step marker.  (The back-button
callback of each prompt is part of the unmodelled keyboard.) -/
def askPrompts : List (String × String × Step) :=
  [("broadcast_msg", "सभी उपयोगकर्ताओं को भेजने के लिए संदेश भेजें:", .awaitingBroadcastMessage),
   ("post_msg", "सभी फ्री चैनलों पर भेजने के लिए संदेश भेजें:", .awaitingPostMessage),
   ("add_admin", "नए एडमिन की यूजर आईडी भेजें:", .awaitingAddAdminId),
   ("remove_admin", "हटाने के लिए एडमिन की यूजर आईडी भेजें:", .awaitingRemoveAdminId),
   ("block_user", "ब्लॉक करने के लिए यूजर की आईडी भेजें:", .awaitingBlockUserId),
   ("unblock_user", "अनब्लॉक करने के लिए यूजर की आईडी भेजें:", .awaitingUnblockUserId),
   ("add_free_channel_name", "कृपया नए फ्री बैच का नाम भेजें:", .awaitingFreeChannelName),
   ("remove_free_channel", "हटाने के लिए फ्री चैनल का नंबर भेजें:", .awaitingRemoveFreeChannelNum),
   ("add_paid_channel_name", "कृपया नए पेड बैच का नाम भेजें:", .awaitingPaidChannelName),
   ("remove_paid_channel", "हटाने के लिए पेड चैनल का नंबर भेजें:", .awaitingRemovePaidChannelNum)]

def msgBotInChats : String := "बॉट इन ग्रुप/चैनलों में है:"

def msgJoinClick : String := "चैनल ज्वाइन करने के लिए नीचे दिए गए बटन पर क्लिक करें:"

def purchaseInfo : String :=
  "\n\n----------------------------------------\n"
    ++ "<b>यदि आप कोर्स खरीदने में रुचि रखते हैं, तो कृपया अधिक जानकारी के लिए @H4R_Contact_bot पर संदेश भेजें।</b>"

def listUsersEntry (uid : Int) (d : UserInfo) : String :=
  "<b>" ++ d.fullName ++ "</b>\n"
    ++ (if pyTruthy d.username then "@" ++ d.username.getD "" else "N/A")
    ++ "\n<code>" ++ pyStrInt uid ++ "</code>"

def listFreeChannelsText (g : GState) : String :=
  "<b>फ्री चैनल सूची (एडमिन व्यू):</b>\n\n"
    ++ (if g.freeChannels.isEmpty then "अभी कोई फ्री चैनल उपलब्ध नहीं है।"
        else String.intercalate "\n" (g.freeChannels.enum.map (fun pr =>
          pyStrNat (pr.1 + 1) ++ ". <a href=\x27"
            ++ (dictGet? g.freeChannelLinks pr.2.1).getD "" ++ "\x27>" ++ pr.2.2 ++ "</a>")))

def listPaidChannelsText (g : GState) : String :=
  "<b>पेड चैनल सूची (एडमिन व्यू):</b>\n\n"
    ++ (if g.paidChannels.isEmpty then "अभी कोई पेड चैनल उपलब्ध नहीं है।"
        else String.intercalate "\n" (g.paidChannels.enum.map (fun pr =>
          pyStrNat (pr.1 + 1) ++ ". " ++ pr.2)))

def botStatsText (g : GState) : String :=
  "📊 **बॉट आँकड़े** 📊\n\n"
    ++ "कुल ज्ञात उपयोगकर्ता: " ++ pyStrNat g.userData.length ++ "\n"
    ++ "एडमिन: " ++ pyStrNat g.adminIds.length ++ "\n"
    ++ "सामान्य उपयोगकर्ता: "
    ++ pyStrInt ((g.userData.length : Int) - (g.adminIds.length : Int)) ++ "\n"
    ++ "ब्लॉक किए गए उपयोगकर्ता: " ++ pyStrNat g.blockedUserIds.length

def listAdminsText (g : GState) : String :=
  "<b>मालिक:</b> " ++ pyStrInt g.ownerId ++ "\n\n<b>सभी एडमिन:</b>\n"
    ++ String.intercalate "\n" (g.adminIds.map pyStrInt)

def listBlockedText (g : GState) : String :=
  "<b>ब्लॉक किए गए उपयोगकर्ता:</b>\n\n"
    ++ String.intercalate "\n" (g.blockedUserIds.map (fun uid =>
        "<code>" ++ pyStrInt uid ++ "</code>"))

/-- `button_handler` (lines 261-513).  `leaveOk ch` says whether the
`leave_chat(ch)` call raises.  The generic `query.answer()` before the main
`elif` chain is the empty `answerCb`.  A branch that falls through with no
match leaves everything unchanged (silent no-op).  When an unguarded
`int(...)` raises, the handler stops with the effects issued so far (the
global error handler swallows the exception). -/
def buttonHandler (mem : MemOracle) (leaveOk : Int → Bool) (g : GState)
    (ctx : UserCtx) (userId : Int) (firstName : String) (data : String) :
    GState × UserCtx × List Eff :=
  if userId ∈ g.blockedUserIds then
    (g, ctx, [Eff.answerCb "You are blocked from using this bot." true])
  else if data = "verify_join" then
    let pre := [Eff.answerCb "जाँच हो रही है..." false]
    let r := isUserMemberOfChannel mem g userId
    if r.1 then
      (g, ctx, pre ++ r.2 ++ [Eff.answerCb "धन्यवाद! आपका स्वागत है।" false,
        Eff.editMessage (memberMenuText firstName)])
    else
      (g, ctx, pre ++ r.2
        ++ [Eff.answerCb "आप अभी तक चैनल में शामिल नहीं हुए हैं। कृपया ज्वाइन करें और फिर से प्रयास करें।" true])
  else if data = "get_my_id" then
    (g, ctx, [Eff.answerCb ("आपकी यूजर आईडी: " ++ pyStrInt userId) true])
  else if pyStartsWith data "leave_chat_" then
    if ¬ isOwner g userId then (g, ctx, [])
    else
      match pyIntOfStr? (lastUnderscoreSeg data) with
      | none => (g, ctx, [])
      | some cid =>
        if leaveOk cid then
          let inChats := dictHasKey g.activeChats cid
          ((if inChats then { g with activeChats := dictPop g.activeChats cid } else g),
            ctx,
            [Eff.leaveChat cid,
              Eff.answerCb ("चैट " ++ pyStrInt cid ++ " को सफलतापूर्वक छोड़ दिया।") false]
              ++ (if inChats then [Eff.saveSnapshot] else [])
              ++ [Eff.editMessage msgBotInChats])
        else
          -- the source appends the exception text to this alert
          (g, ctx, [Eff.leaveChat cid, Eff.answerCb "चैट छोड़ने में विफल" true])
  else
    let ack := Eff.answerCb "" false
    if data = "start_member" then
      (g, ctx, [ack, Eff.editMessage (memberMenuText firstName)])
    else if data = "main_menu_owner" then
      (g, ctx, [ack, Eff.editMessage msgOwnerMenu])
    else if data = "admin_panel" then
      if ¬ isAdmin g userId then (g, ctx, [ack])
      else (g, ctx, [ack, Eff.editMessage "👑 एडमिन पैनल:"])
    else if data = "owner_panel" then
      if ¬ isOwner g userId then (g, ctx, [ack])
      else (g, ctx, [ack, Eff.editMessage "🔑 मालिक पैनल:"])
    else if pyStartsWith data "ask_" then
      if ¬ isAdmin g userId then (g, ctx, [ack])
      else
        let action := String.mk (data.data.drop 4)
        match askPrompts.find? (fun t => t.1 = action) with
        | some t =>
          (g, { ctx with nextStep := some t.2.2 }, [ack, Eff.editMessage t.2.1])
        | none => (g, ctx, [ack])
    else if data = "manage_free_channels" then
      if ¬ isAdmin g userId then (g, ctx, [ack])
      else (g, ctx, [ack, Eff.editMessage "🆓 फ्री चैनल प्रबंधित करें:"])
    else if data = "manage_paid_channels" then
      if ¬ isAdmin g userId then (g, ctx, [ack])
      else (g, ctx, [ack, Eff.editMessage "💎 पेड चैनल प्रबंधित करें:"])
    else if data = "manage_users" then
      if ¬ isOwner g userId then (g, ctx, [ack])
      else (g, ctx, [ack, Eff.editMessage "👥 उपयोगकर्ता प्रबंधित करें:"])
    else if data = "list_admins" then
      if ¬ isOwner g userId then (g, ctx, [ack])
      else (g, ctx, [ack, Eff.editMessage (listAdminsText g)])
    else if data = "list_users" then
      if ¬ isOwner g userId then (g, ctx, [ack])
      else if g.userData.isEmpty then
        (g, ctx, [ack, Eff.editMessage "कोई उपयोगकर्ता नहीं मिला।"])
      else
        let entries := (g.userData.filter (fun p => p.1 ∉ g.adminIds)).map
          (fun p => listUsersEntry p.1 p.2)
        if entries.isEmpty then
          (g, ctx, [ack, Eff.editMessage "एडमिन के अलावा कोई उपयोगकर्ता नहीं है।"])
        else
          (g, ctx, [ack, Eff.editMessage ("<b>बॉट उपयोगकर्ता:</b>\n\n"
            ++ String.intercalate "\n\n" entries)])
    else if data = "list_blocked_users" then
      if ¬ isOwner g userId then (g, ctx, [ack])
      else if g.blockedUserIds.isEmpty then
        (g, ctx, [ack, Eff.editMessage "कोई उपयोगकर्ता ब्लॉक नहीं है।"])
      else (g, ctx, [ack, Eff.editMessage (listBlockedText g)])
    else if data = "bot_stats" then
      if ¬ isOwner g userId then (g, ctx, [ack])
      else (g, ctx, [ack, Eff.editMessage (botStatsText g)])
    else if data = "join_list" then
      if ¬ isOwner g userId then (g, ctx, [ack])
      else (g, ctx, [ack, Eff.editMessage msgBotInChats])
    else if data = "list_free_channels_admin" then
      if ¬ isAdmin g userId then (g, ctx, [ack])
      else (g, ctx, [ack, Eff.editMessage (listFreeChannelsText g)])
    else if data = "list_paid_channels_admin" then
      if ¬ isAdmin g userId then (g, ctx, [ack])
      else (g, ctx, [ack, Eff.editMessage (listPaidChannelsText g)])
    else if data = "show_free_channels" then
      (g, ctx, [ack, Eff.editMessage "कृपया एक फ्री चैनल चुनें:"])
    else if data = "show_paid_channels" then
      (g, ctx, [ack, Eff.editMessage "कृपया एक पेड चैनल चुनें:"])
    else if pyStartsWith data "join_" then
      if pyStartsWith data "join_free_" then
        match pyIntOfStr? (lastUnderscoreSeg data) with
        | none => (g, ctx, [ack, Eff.deleteMessage])
        | some cid =>
          match dictGet? g.freeChannelLinks cid with
          | some link =>
            (g, ctx, [ack, Eff.deleteMessage,
              Eff.sendMessage userId msgJoinClick (some link)])
          | none =>
            (g, ctx, [ack, Eff.deleteMessage,
              Eff.answerCb "इस चैनल के लिए लिंक उपलब्ध नहीं है।" true])
      else if pyStartsWith data "join_paid_" then
        match pyIntOfStr? (lastUnderscoreSeg data) with
        | none => (g, ctx, [ack, Eff.deleteMessage])
        | some idx =>
          if 0 ≤ idx ∧ idx < (g.paidChannels.length : Int) then
            let entry := g.paidChannels.getD idx.toNat ""
            match (pySplit "href=\x27" entry).get? 1 with
            | some part =>
              let link := (pySplit "\x27" part).headD ""
              (g, ctx, [ack, Eff.deleteMessage,
                Eff.sendMessage userId (msgJoinClick ++ purchaseInfo) (some link)])
            | none =>
              (g, ctx, [ack, Eff.deleteMessage,
                Eff.answerCb "इस चैनल के लिए लिंक नहीं मिला।" true])
          else (g, ctx, [ack, Eff.deleteMessage])
      else (g, ctx, [ack, Eff.deleteMessage])
    else (g, ctx, [ack])

/-! ## `handle_text_input` (lines 517-653). -/

/-- The pre-rendered paid catalogue entry built at line 638. -/
def paidEntry (name link : String) : String :=
  "<a href=\x27" ++ link ++ "\x27>💎<code>" ++ name
    ++ "</code></a> - प्रीमियम कंटेंट के लिए।"

/-- The admin/user-management block (lines 551-583): only reached for the
four owner-wizard states; `save_data()` runs after whichever subbranch
(line 581), also after a rejection. -/
def ownerWizard (g : GState) (userId : Int) (text : String) (st : Step) :
    GState × List Eff :=
  if ¬ isOwner g userId then (g, [])
  else
    match pyIntOfStr? text with
    | none => (g, [Eff.replyText "अमान्य यूजर आईडी।"])
    | some target =>
      match st with
      | .awaitingAddAdminId =>
        if target ∉ g.adminIds then
          ({ g with adminIds := g.adminIds ++ [target] },
            [Eff.replyText ("एडमिन " ++ pyStrInt target
              ++ " को सफलतापूर्वक जोड़ दिया गया है।"), Eff.saveSnapshot])
        else (g, [Eff.replyText "यह यूजर पहले से ही एडमिन है।", Eff.saveSnapshot])
      | .awaitingRemoveAdminId =>
        if target = g.ownerId then
          (g, [Eff.replyText "आप मालिक को नहीं हटा सकते।", Eff.saveSnapshot])
        else if target ∈ g.adminIds then
          ({ g with adminIds := g.adminIds.erase target },
            [Eff.replyText ("एडमिन " ++ pyStrInt target
              ++ " को सफलतापूर्वक हटा दिया गया है।"), Eff.saveSnapshot])
        else (g, [Eff.replyText "यह यूजर एडमिन नहीं है।", Eff.saveSnapshot])
      | .awaitingBlockUserId =>
        if target = g.ownerId ∨ target ∈ g.adminIds then
          (g, [Eff.replyText "आप किसी एडमिन या मालिक को ब्लॉक नहीं कर सकते।",
            Eff.saveSnapshot])
        else
          ({ g with blockedUserIds := pySetAdd g.blockedUserIds target },
            [Eff.replyText ("उपयोगकर्ता " ++ pyStrInt target
              ++ " को सफलतापूर्वक ब्लॉक कर दिया गया है।"), Eff.saveSnapshot])
      | .awaitingUnblockUserId =>
        if target ∈ g.blockedUserIds then
          ({ g with blockedUserIds := pySetRemove g.blockedUserIds target },
            [Eff.replyText ("उपयोगकर्ता " ++ pyStrInt target
              ++ " को सफलतापूर्वक अनब्लॉक कर दिया गया है।"), Eff.saveSnapshot])
        else (g, [Eff.replyText "यह उपयोगकर्ता ब्लॉक सूची में नहीं है।", Eff.saveSnapshot])
      | _ => (g, [Eff.saveSnapshot])

/-- `handle_text_input` (lines 517-653).  `sendOk id` says whether
`send_message(id, ...)` succeeds (broadcast and post fan-outs). -/
def handleTextInput (sendOk : Int → Bool) (g : GState) (ctx : UserCtx)
    (userId : Int) (text : String) : GState × UserCtx × List Eff :=
  match ctx.nextStep with
  | none => (g, ctx, [])
  | some st =>
    if ¬ isAdmin g userId then (g, ctx, [])
    else
      -- `state = context.user_data.pop('next_step')`
      let ctx0 := { ctx with nextStep := none }
      match st with
      | .awaitingBroadcastMessage =>
        let activeUsers := (dictKeys g.userData).filter
          (fun u => u ∉ g.adminIds ∧ u ∉ g.blockedUserIds)
        let success := (activeUsers.filter sendOk).length
        (g, ctx0,
          [Eff.replyText (pyStrNat activeUsers.length
            ++ " उपयोगकर्ताओं को संदेश भेजा जा रहा है...")]
          ++ activeUsers.map (fun u => Eff.sendMessage u text none)
          ++ [Eff.replyText ("ब्रॉडकास्ट पूरा हुआ।\nसफलतापूर्वक: " ++ pyStrNat success
            ++ ", विफल: " ++ pyStrNat (activeUsers.length - success))])
      | .awaitingPostMessage =>
        let channels := dictKeys g.freeChannels
        let successful := (channels.filter sendOk).length
        let failed := (channels.filter (fun ch => ¬ sendOk ch)).map pyStrInt
        (g, ctx0,
          channels.map (fun ch => Eff.sendMessage ch text none)
          ++ [Eff.replyText (("संदेश सफलतापूर्वक " ++ pyStrNat successful
            ++ " चैनलों पर भेज दिया गया है।")
            ++ (if failed.isEmpty then ""
                else "\nइन पर भेजने में विफल रहा: " ++ String.intercalate ", " failed))])
      | .awaitingAddAdminId | .awaitingRemoveAdminId
      | .awaitingBlockUserId | .awaitingUnblockUserId =>
        let r := ownerWizard g userId text st
        (r.1, ctx0, r.2)
      | .awaitingFreeChannelName =>
        (g, { ctx0 with newChannelName := some text,
                        nextStep := some .awaitingFreeChannelLink },
          [Eff.replyText "ठीक है, नाम सेट हो गया।\n\nअब इस बैच का इनवाइट लिंक भेजें (https://t.me/+...):"])
      | .awaitingFreeChannelLink =>
        (g, { ctx0 with newChannelLink := some text,
                        nextStep := some .awaitingFreeChannelChatId },
          [Eff.replyText "ठीक है, लिंक सेट हो गया।\n\nअब इस बैच की चैट आईडी भेजें (-100...):"])
      | .awaitingFreeChannelChatId =>
        -- lines 596-613: the name/link accumulator is popped BEFORE the
        -- chat id is validated
        let name := ctx.newChannelName
        let link := ctx.newChannelLink
        let ctx1 := { ctx0 with newChannelName := none, newChannelLink := none }
        match pyIntOfStr? text with
        | none => (g, ctx1, [Eff.replyText "अमान्य चैट आईडी। कृपया केवल नंबर भेजें।"])
        | some chatId =>
          if ¬ pyStartsWith (pyStrInt chatId) "-100" then
            (g, ctx1,
              [Eff.replyText "अमान्य चैट आईडी। यह -100 से शुरू होनी चाहिए। कृपया फिर से प्रयास करें।"])
          else if pyTruthy name ∧ pyTruthy link then
            ({ g with freeChannels := dictSet g.freeChannels chatId (name.getD ""),
                      freeChannelLinks := dictSet g.freeChannelLinks chatId (link.getD "") },
              ctx1,
              [Eff.saveSnapshot, Eff.replyText ("सफलता! फ्री चैनल \x27" ++ name.getD ""
                ++ "\x27 को सूची में जोड़ दिया गया है।")])
          else (g, ctx1, [Eff.replyText "कुछ जानकारी गुम थी। कृपया प्रक्रिया फिर से शुरू करें।"])
      | .awaitingRemoveFreeChannelNum =>
        match pyIntOfStr? text with
        | none => (g, ctx0, [Eff.replyText "कृपया एक नंबर भेजें।"])
        | some n =>
          let idx := n - 1
          let ids := dictKeys g.freeChannels
          if 0 ≤ idx ∧ idx < (ids.length : Int) then
            let rid := ids.getD idx.toNat 0
            let title := (dictGet? g.freeChannels rid).getD ""
            ({ g with freeChannels := dictPop g.freeChannels rid,
                      freeChannelLinks := dictPop g.freeChannelLinks rid },
              ctx0,
              [Eff.saveSnapshot, Eff.replyText ("फ्री चैनल \x27" ++ title
                ++ "\x27 को सूची से हटा दिया गया है।")])
          else (g, ctx0, [Eff.replyText "अमान्य नंबर।"])
      | .awaitingPaidChannelName =>
        (g, { ctx0 with newChannelName := some text,
                        nextStep := some .awaitingPaidChannelLink },
          [Eff.replyText "अब इस बैच का इनवाइट लिंक भेजें (https://t.me/+...):"])
      | .awaitingPaidChannelLink =>
        let name := ctx.newChannelName.getD "N/A"
        ({ g with paidChannels := g.paidChannels ++ [paidEntry name text] },
          { ctx0 with newChannelName := none },
          [Eff.saveSnapshot, Eff.replyText ("पेड चैनल \x27" ++ name
            ++ "\x27 सफलतापूर्वक जोड़ दिया गया है।")])
      | .awaitingRemovePaidChannelNum =>
        match pyIntOfStr? text with
        | none => (g, ctx0, [Eff.replyText "कृपया एक नंबर भेजें।"])
        | some n =>
          let idx := n - 1
          if 0 ≤ idx ∧ idx < (g.paidChannels.length : Int) then
            let removed := g.paidChannels.getD idx.toNat ""
            ({ g with paidChannels := g.paidChannels.eraseIdx idx.toNat },
              ctx0,
              [Eff.saveSnapshot,
                Eff.replyHtml ("पेड चैनल एंट्री हटा दी गई: " ++ removed)])
          else (g, ctx0, [Eff.replyText "अमान्य नंबर।"])

/-! ## Concrete fixture states used by witnesses and counterexamples. -/

/-- A populated state: owner 5, admins 5 and 9, two free channels, blocked
user 7, one known regular user 42. -/
def gA : GState :=
  { ownerId := 5, mandatoryChannelId := -1009, adminIds := [5, 9],
    freeChannels := [(-1001, "A"), (-1002, "B")],
    freeChannelLinks := [(-1001, "http://a"), (-1002, "http://b")],
    paidChannels := [], blockedUserIds := [7], activeChats := [(-2000, "Grp")],
    userData := [(42, ⟨"Ann", some "ann"⟩)] }

/-- The same configuration as a freshly started process (empty registries),
as after a restart before `load_data`. -/
def gFresh : GState :=
  { ownerId := 5, mandatoryChannelId := -1009, adminIds := [5],
    freeChannels := [], freeChannelLinks := [], paidChannels := [],
    blockedUserIds := [], activeChats := [], userData := [] }

/-- Wizard context at the third add-free-channel step with both accumulated
fields present. -/
def ctxC1 : UserCtx :=
  ⟨some .awaitingFreeChannelChatId, some "Batch A", some "https://t.me/+abc"⟩

/-- Empty per-user context. -/
def ctxEmpty : UserCtx := ⟨none, none, none⟩

/-- A well-formed snapshot whose `ADMIN_IDS` list omits owner 5. -/
def snapNoOwner : SnapshotData :=
  ⟨some [7], some [], some [], some [], some [], some []⟩

/-- Ban oracle that fails exactly on channel `-1001`. -/
def bkFail1 : Int → Int → Bool := fun ch _ => ch ≠ -1001

/-! ## Claims. -/

/-- C1: evaluation of `handle_text_input` at the failing inputs.  At the
third add-free-channel step, a non-numeric id (`"abc"`) and a numeric id
not beginning with `-100` (`"123"`) both leave the catalogue and its link
mapping unchanged (as the claim states), but — contrary to the claim — the
wizard is NOT left on the chat-id step and the accumulated name/link are
NOT still stored: the handler pops `next_step`, `new_channel_name` and
`new_channel_link` before validating, so its own "try again" reply is
unfulfillable (the next message finds no pending step and is ignored). -/
theorem c1_free_chat_id_invalid_input_eval :
    handleTextInput (fun _ => true) gA ctxC1 9 "abc"
      = (gA, ctxEmpty, [Eff.replyText "अमान्य चैट आईडी। कृपया केवल नंबर भेजें।"])
    ∧ handleTextInput (fun _ => true) gA ctxC1 9 "123"
      = (gA, ctxEmpty,
          [Eff.replyText "अमान्य चैट आईडी। यह -100 से शुरू होनी चाहिए। कृपया फिर से प्रयास करें।"]) := by
  exact ⟨by decide, by decide⟩

/-- C3 counterexample: user 7 is in the block list, yet `/id` sends a reply
to them — `id_command` performs no block check at all, refuting the claim
that the block check precedes every handler's logic and that no reply is
ever sent to a blocked sender. -/
theorem c3_blocked_user_gets_id_reply :
    7 ∈ gA.blockedUserIds ∧
    idCommand gA .private_ 7 7
      = [Eff.replyHtml "Aapki User ID hai: <code>7</code>\n(Click karke copy karein)"] := by
  exact ⟨by decide, by decide⟩

/-- C3 amended: the block check is the first guard of the start, help and
button handlers — a blocked sender causes no state change, no menu render
and no reply there (the button handler only acknowledges the press with a
blocking alert); the `/id` command, however, has no block check and replies
regardless. -/
theorem c3_block_guard_first_amended :
    ∀ (mem : MemOracle) (banOk : Int → Int → Bool) (leaveOk : Int → Bool)
      (g : GState) (ctx : UserCtx) (u : TgUser) (data : String),
      u.id ∈ g.blockedUserIds →
      startCommand mem banOk g u = (g, []) ∧
      helpCommand mem g u.id = [] ∧
      buttonHandler mem leaveOk g ctx u.id u.firstName data
        = (g, ctx, [Eff.answerCb "You are blocked from using this bot." true]) := by
  intro mem banOk leaveOk g ctx u data h
  refine ⟨?_, ?_, ?_⟩
  · simp [startCommand, h]
  · simp [helpCommand, h]
  · simp [buttonHandler, h]

/-- C3 amended, witness at blocked user 7 of `gA`. -/
theorem c3_block_guard_first_witness :
    startCommand (fun _ _ => none) (fun _ _ => true) gA ⟨7, "F", "Full", none⟩ = (gA, []) ∧
    helpCommand (fun _ _ => none) gA 7 = [] ∧
    buttonHandler (fun _ _ => none) (fun _ => true) gA ctxEmpty 7 "F" "admin_panel"
      = (gA, ctxEmpty, [Eff.answerCb "You are blocked from using this bot." true]) :=
  c3_block_guard_first_amended (fun _ _ => none) (fun _ _ => true) (fun _ => true)
    gA ctxEmpty ⟨7, "F", "Full", none⟩ "admin_panel" (by decide)

/-- C4 counterexample: `gA` has a UserDirectory entry for user 42 at
checkpoint time, but after a restart (`gFresh`) that reloads the snapshot
the directory is empty: `save_data` writes no `USER_DATA` field. -/
theorem c4_user_directory_not_persisted :
    gA.userData = [(42, ⟨"Ann", some "ann"⟩)] ∧
    (loadData (saveData gA) gFresh).userData = [] := by
  exact ⟨by decide, by decide⟩

/-- C4 amended: the snapshot does not include the UserDirectory — the
snapshot record has no user-directory field and `load_data` never touches
`USER_DATA`, so after a restart the directory holds whatever the fresh
process started with (nothing), not the checkpoint-time entries. -/
theorem c4_load_leaves_user_directory :
    ∀ (d : SnapshotData) (g : GState), (loadData d g).userData = g.userData := by
  intro d g
  unfold loadData
  dsimp only
  repeat' split
  all_goals rfl

/-- C8 counterexample: with the paid wizard at its second (invite-link)
step, submitting the link already mutates `PAID_CHANNELS` and clears the
pending step — there is no third numeric-chat-id step, refuting the claim
that the add-paid-channel wizard has three chained steps with the mutation
only at the final chat-id step. -/
theorem c8_paid_wizard_mutates_at_link_step :
    handleTextInput (fun _ => true) gA
        ⟨some .awaitingPaidChannelLink, some "Course", none⟩ 9 "https://t.me/+x"
      = ({ gA with paidChannels := [paidEntry "Course" "https://t.me/+x"] },
          ctxEmpty,
          [Eff.saveSnapshot,
            Eff.replyText "पेड चैनल \x27Course\x27 सफलतापूर्वक जोड़ दिया गया है।"]) := by
  decide

/-- C8 amended: the add-paid-channel wizard is TWO chained steps — name,
then invite link.  The name step stores its answer and advances the marker
without mutating; the link step performs the mutation, appending the
pre-rendered entry built from the accumulated name (default `"N/A"`) and
the link, clears the accumulator, and checkpoints. -/
theorem c8_paid_wizard_two_steps_amended :
    ∀ (sendOk : Int → Bool) (g : GState) (ctx : UserCtx) (uid : Int) (text : String),
      uid ∈ g.adminIds →
      (ctx.nextStep = some .awaitingPaidChannelName →
        handleTextInput sendOk g ctx uid text
          = (g, { ctx with nextStep := some .awaitingPaidChannelLink,
                           newChannelName := some text },
              [Eff.replyText "अब इस बैच का इनवाइट लिंक भेजें (https://t.me/+...):"])) ∧
      (ctx.nextStep = some .awaitingPaidChannelLink →
        handleTextInput sendOk g ctx uid text
          = ({ g with paidChannels := g.paidChannels
                ++ [paidEntry (ctx.newChannelName.getD "N/A") text] },
              { ctx with nextStep := none, newChannelName := none },
              [Eff.saveSnapshot,
                Eff.replyText ("पेड चैनल \x27" ++ ctx.newChannelName.getD "N/A"
                  ++ "\x27 सफलतापूर्वक जोड़ दिया गया है।")])) := by
  intro sendOk g ctx uid text hadm
  constructor
  · intro hst
    simp [handleTextInput, hst, isAdmin, hadm]
  · intro hst
    simp [handleTextInput, hst, isAdmin, hadm]

/-- C8 amended, witness: both paid-wizard steps at concrete inputs. -/
theorem c8_paid_wizard_two_steps_witness :
    (handleTextInput (fun _ => true) gA ⟨some .awaitingPaidChannelName, none, none⟩ 9 "Course"
      = (gA, ⟨some .awaitingPaidChannelLink, some "Course", none⟩,
          [Eff.replyText "अब इस बैच का इनवाइट लिंक भेजें (https://t.me/+...):"])) ∧
    (handleTextInput (fun _ => true) gA ⟨some .awaitingPaidChannelLink, some "C2", none⟩ 9 "L"
      = ({ gA with paidChannels := [paidEntry "C2" "L"] },
          ⟨none, none, none⟩,
          [Eff.saveSnapshot,
            Eff.replyText "पेड चैनल \x27C2\x27 सफलतापूर्वक जोड़ दिया गया है।"])) :=
  ⟨(c8_paid_wizard_two_steps_amended (fun _ => true) gA
      ⟨some .awaitingPaidChannelName, none, none⟩ 9 "Course" (by decide)).1 rfl,
   (c8_paid_wizard_two_steps_amended (fun _ => true) gA
      ⟨some .awaitingPaidChannelLink, some "C2", none⟩ 9 "L" (by decide)).2 rfl⟩

/-- Owner membership in `adminIds` is preserved by the owner-wizard block:
add only appends; remove refuses the owner id and otherwise erases a
different id; block/unblock do not touch `adminIds`. -/
theorem ownerWizard_owner_mem (g : GState) (userId : Int) (text : String)
    (st : Step) (h : g.ownerId ∈ g.adminIds) :
    g.ownerId ∈ (ownerWizard g userId text st).1.adminIds := by
  unfold ownerWizard
  split
  · exact h
  · split
    · exact h
    · rename_i target
      cases st <;> simp only []
      case awaitingAddAdminId =>
        split
        · exact List.mem_append_left _ h
        · exact h
      case awaitingRemoveAdminId =>
        split
        · exact h
        · split
          · rename_i hne _
            exact (List.mem_erase_of_ne (fun he => hne he.symm)).2 h
          · exact h
      all_goals first
        | exact h
        | (split <;> exact h)

/-- C2 counterexample: in state `gA` the owner 5 is an admin, but loading a
well-formed snapshot whose `ADMIN_IDS` is `[7]` replaces the admin list
wholesale: afterwards the owner is no longer a member of AdminSet, refuting
"the owner id is always a member of AdminSet ... after loading the
snapshot". -/
theorem c2_load_can_drop_owner :
    gA.ownerId = 5 ∧ 5 ∈ gA.adminIds ∧
    (loadData snapNoOwner gA).adminIds = [7] ∧
    gA.ownerId ∉ (loadData snapNoOwner gA).adminIds := by
  exact ⟨by decide, by decide, by decide, by decide⟩

/-- C2 amended: (1) module init puts a nonzero owner id into AdminSet;
(2) classification of any AdminSet member never yields `regular`;
(3) every text-input handler invocation (in particular the add-admin and
remove-admin wizards) preserves the owner's AdminSet membership;
(4) loading a snapshot preserves it exactly when the stored `ADMIN_IDS`
contains the owner — which holds for any snapshot saved under the same
owner id, but not for an arbitrary snapshot file. -/
theorem c2_owner_admin_amended :
    (∀ (ownerId : Int) (envAdminIds : List Int),
      ownerId ≠ 0 → ownerId ∈ initAdminIds ownerId envAdminIds) ∧
    (∀ (g : GState) (uid : Int), uid ∈ g.adminIds → classify g uid ≠ .regular) ∧
    (∀ (sendOk : Int → Bool) (g : GState) (ctx : UserCtx) (uid : Int) (text : String),
      g.ownerId ∈ g.adminIds →
      g.ownerId ∈ (handleTextInput sendOk g ctx uid text).1.adminIds) ∧
    (∀ (d : SnapshotData) (g : GState),
      g.ownerId ∈ d.adminIds.getD g.adminIds →
      g.ownerId ∈ (loadData d g).adminIds) := by
  refine ⟨?_, ?_, ?_, ?_⟩
  · intro o env h
    unfold initAdminIds
    split
    · simp
    · rename_i hc
      by_cases hm : o ∈ env
      · exact hm
      · exact absurd ⟨h, hm⟩ hc
  · intro g uid h
    unfold classify
    split
    · simp
    · split
      · simp
      · rename_i hadm
        exact absurd (by simpa [isAdmin] using h) hadm
  · intro sendOk g ctx uid text h
    unfold handleTextInput
    cases hst : ctx.nextStep with
    | none => exact h
    | some st =>
      dsimp only
      split
      · exact h
      · cases st <;> dsimp only
        case awaitingAddAdminId => exact ownerWizard_owner_mem g uid text _ h
        case awaitingRemoveAdminId => exact ownerWizard_owner_mem g uid text _ h
        case awaitingBlockUserId => exact ownerWizard_owner_mem g uid text _ h
        case awaitingUnblockUserId => exact ownerWizard_owner_mem g uid text _ h
        all_goals repeat' split
        all_goals exact h
  · intro d g h
    unfold loadData
    dsimp only
    repeat' split
    all_goals exact h

/-- C2 amended, witness: init with owner 5; classification of admin 9;
the remove-admin wizard removing admin 9 keeps owner 5; reloading the
snapshot saved from `gA` keeps owner 5. -/
theorem c2_owner_admin_witness :
    5 ∈ initAdminIds 5 [] ∧
    classify gA 9 ≠ .regular ∧
    5 ∈ (handleTextInput (fun _ => true) gA
          ⟨some .awaitingRemoveAdminId, none, none⟩ 5 "9").1.adminIds ∧
    5 ∈ (loadData (saveData gA) gA).adminIds :=
  ⟨c2_owner_admin_amended.1 5 [] (by decide),
   c2_owner_admin_amended.2.1 gA 9 (by decide),
   c2_owner_admin_amended.2.2.1 (fun _ => true) gA
     ⟨some .awaitingRemoveAdminId, none, none⟩ 5 "9" (by decide),
   c2_owner_admin_amended.2.2.2 (saveData gA) gA (by decide)⟩

/-- C5: the cascading removal worker is a no-op for any admin id (no
outbound call at all); for a non-admin it attempts the ban for EVERY
channel of the free catalogue — whatever the per-call failure oracle — and
follows each non-failing ban immediately by the unban for that channel.
Failures are swallowed (`kickFromChannel` records the attempts; the
function is total and returns only the attempt list, so no error reaches
the caller). -/
theorem c5_cascading_removal :
    ∀ (banOk : Int → Int → Bool) (g : GState) (uid : Int),
      (uid ∈ g.adminIds → removeUserFromFreeChannels banOk g uid = []) ∧
      (uid ∉ g.adminIds →
        ∀ ch ∈ dictKeys g.freeChannels,
          Eff.banChatMember ch uid ∈ removeUserFromFreeChannels banOk g uid ∧
          (banOk ch uid = true →
            Eff.unbanChatMember ch uid ∈ removeUserFromFreeChannels banOk g uid)) := by
  intro banOk g uid
  constructor
  · intro h
    simp [removeUserFromFreeChannels, isAdmin, h]
  · intro h ch hch
    have hrw : removeUserFromFreeChannels banOk g uid
        = (dictKeys g.freeChannels).flatMap (fun c => kickFromChannel banOk c uid) := by
      simp [removeUserFromFreeChannels, isAdmin, h]
    constructor
    · rw [hrw]
      refine List.mem_flatMap.2 ⟨ch, hch, ?_⟩
      unfold kickFromChannel
      split <;> simp
    · intro hb
      rw [hrw]
      refine List.mem_flatMap.2 ⟨ch, hch, ?_⟩
      simp [kickFromChannel, hb]

/-- C5 witness: in `gA`, admin 9 triggers no calls; for regular user 8,
with the ban on channel `-1001` failing, channel `-1001` still gets its ban
attempt and channel `-1002` still gets both ban and unban. -/
theorem c5_cascading_removal_witness :
    (9 ∈ gA.adminIds ∧ removeUserFromFreeChannels bkFail1 gA 9 = []) ∧
    (8 ∉ gA.adminIds ∧
      Eff.banChatMember (-1001) 8 ∈ removeUserFromFreeChannels bkFail1 gA 8 ∧
      Eff.banChatMember (-1002) 8 ∈ removeUserFromFreeChannels bkFail1 gA 8 ∧
      Eff.unbanChatMember (-1002) 8 ∈ removeUserFromFreeChannels bkFail1 gA 8) :=
  ⟨⟨by decide, (c5_cascading_removal bkFail1 gA 9).1 (by decide)⟩,
   ⟨by decide,
    ((c5_cascading_removal bkFail1 gA 8).2 (by decide) (-1001) (by decide)).1,
    ((c5_cascading_removal bkFail1 gA 8).2 (by decide) (-1002) (by decide)).1,
    ((c5_cascading_removal bkFail1 gA 8).2 (by decide) (-1002) (by decide)).2 (by decide)⟩⟩

/-- C6: the membership gate returns `true` with no external call for any
admin; for everyone else it issues exactly one lookup against the
mandatory channel, returns `false` whenever the lookup raises (fail
closed), and returns `true` exactly when the reported status is owner,
administrator or member. -/
theorem c6_membership_gate :
    ∀ (mem : MemOracle) (g : GState) (uid : Int),
      (uid ∈ g.adminIds → isUserMemberOfChannel mem g uid = (true, [])) ∧
      (uid ∉ g.adminIds →
        (isUserMemberOfChannel mem g uid).2
          = [Eff.getChatMember g.mandatoryChannelId uid] ∧
        (mem g.mandatoryChannelId uid = none →
          (isUserMemberOfChannel mem g uid).1 = false) ∧
        ((isUserMemberOfChannel mem g uid).1 = true ↔
          ∃ st, mem g.mandatoryChannelId uid = some st ∧
            (st = .owner ∨ st = .administrator ∨ st = .member))) := by
  intro mem g uid
  constructor
  · intro h
    simp [isUserMemberOfChannel, isAdmin, h]
  · intro h
    have hadm : isAdmin g uid = false := by simp [isAdmin, h]
    refine ⟨?_, ?_, ?_⟩
    · unfold isUserMemberOfChannel
      rw [hadm]
      cases mem g.mandatoryChannelId uid <;> simp
    · intro hnone
      simp [isUserMemberOfChannel, hadm, hnone]
    · unfold isUserMemberOfChannel
      rw [hadm]
      cases hm : mem g.mandatoryChannelId uid with
      | none => simp
      | some st => simp

/-- C6 witness: in `gA` (mandatory channel `-1009`), admin 9 passes with no
call; for user 8 the oracle reporting `member` yields one lookup and
`true`; an oracle that raises yields `false`. -/
theorem c6_membership_gate_witness :
    (9 ∈ gA.adminIds ∧
      isUserMemberOfChannel (fun _ _ => some .member) gA 9 = (true, [])) ∧
    (8 ∉ gA.adminIds ∧
      (isUserMemberOfChannel (fun _ _ => some .member) gA 8).2
        = [Eff.getChatMember (-1009) 8] ∧
      (isUserMemberOfChannel (fun _ _ => none) gA 8).1 = false ∧
      ((isUserMemberOfChannel (fun _ _ => some .member) gA 8).1 = true ↔
        ∃ st, (fun (_ : Int) (_ : Int) => some MemberStatus.member) (-1009) 8 = some st ∧
          (st = .owner ∨ st = .administrator ∨ st = .member))) :=
  ⟨⟨by decide, (c6_membership_gate (fun _ _ => some .member) gA 9).1 (by decide)⟩,
   ⟨by decide,
    ((c6_membership_gate (fun _ _ => some .member) gA 8).2 (by decide)).1,
    ((c6_membership_gate (fun _ _ => none) gA 8).2 (by decide)).2.1 rfl,
    ((c6_membership_gate (fun _ _ => some .member) gA 8).2 (by decide)).2.2⟩⟩

theorem mem_pySetAdd (s : List Int) (x : Int) : x ∈ pySetAdd s x := by
  unfold pySetAdd
  split
  · assumption
  · simp

/-- C7: writing the snapshot and loading it in a fresh process reproduces
AdminSet, the free-channel catalogue with its link side-mapping (integer
keys stringified by the JSON dump and restored by `int(k)`), the paid
catalogue, the block list and the active-chat registry.  The block list is
a Python set, hence duplicate-free. -/
theorem c7_snapshot_roundtrip :
    ∀ (s g0 : GState), s.blockedUserIds.Nodup →
      (loadData (saveData s) g0).adminIds = s.adminIds ∧
      (loadData (saveData s) g0).freeChannels = s.freeChannels ∧
      (loadData (saveData s) g0).freeChannelLinks = s.freeChannelLinks ∧
      (loadData (saveData s) g0).paidChannels = s.paidChannels ∧
      (loadData (saveData s) g0).blockedUserIds = s.blockedUserIds ∧
      (loadData (saveData s) g0).activeChats = s.activeChats := by
  intro s g0 h
  unfold saveData loadData
  simp only [Option.getD_some, parseKeys_dumpKeys, pySetOfList_nodup _ h]
  exact ⟨trivial, trivial, trivial, trivial, trivial, trivial⟩

/-- C7 witness: round trip of the populated state `gA` through a fresh
process `gFresh`. -/
theorem c7_snapshot_roundtrip_witness :
    (loadData (saveData gA) gFresh).adminIds = gA.adminIds ∧
    (loadData (saveData gA) gFresh).freeChannels = gA.freeChannels ∧
    (loadData (saveData gA) gFresh).freeChannelLinks = gA.freeChannelLinks ∧
    (loadData (saveData gA) gFresh).paidChannels = gA.paidChannels ∧
    (loadData (saveData gA) gFresh).blockedUserIds = gA.blockedUserIds ∧
    (loadData (saveData gA) gFresh).activeChats = gA.activeChats :=
  c7_snapshot_roundtrip gA gFresh (by decide)

/-- C9: in the block-user wizard (owner acting), a target equal to the
owner id or present in AdminSet leaves the block list unchanged and sends
the rejection message; any other parsed id is added to the block list and
the snapshot is written before the handler completes. -/
theorem c9_block_wizard :
    ∀ (sendOk : Int → Bool) (g : GState) (ctx : UserCtx) (uid : Int)
      (text : String) (target : Int),
      uid ∈ g.adminIds → uid = g.ownerId →
      ctx.nextStep = some .awaitingBlockUserId →
      pyIntOfStr? text = some target →
      ((target = g.ownerId ∨ target ∈ g.adminIds) →
        handleTextInput sendOk g ctx uid text
          = (g, { ctx with nextStep := none },
              [Eff.replyText "आप किसी एडमिन या मालिक को ब्लॉक नहीं कर सकते।",
                Eff.saveSnapshot])) ∧
      (¬ (target = g.ownerId ∨ target ∈ g.adminIds) →
        handleTextInput sendOk g ctx uid text
          = ({ g with blockedUserIds := pySetAdd g.blockedUserIds target },
              { ctx with nextStep := none },
              [Eff.replyText ("उपयोगकर्ता " ++ pyStrInt target
                ++ " को सफलतापूर्वक ब्लॉक कर दिया गया है।"), Eff.saveSnapshot]) ∧
        target ∈ (handleTextInput sendOk g ctx uid text).1.blockedUserIds) := by
  intro sendOk g ctx uid text target hadm howner hst hparse
  have hadm2 : g.ownerId ∈ g.adminIds := by rw [← howner]; exact hadm
  constructor
  · intro hor
    simp [handleTextInput, hst, isAdmin, hadm, hadm2, ownerWizard, isOwner, howner,
      hparse, hor]
  · intro hnor
    have heq : handleTextInput sendOk g ctx uid text
        = ({ g with blockedUserIds := pySetAdd g.blockedUserIds target },
            { ctx with nextStep := none },
            [Eff.replyText ("उपयोगकर्ता " ++ pyStrInt target
              ++ " को सफलतापूर्वक ब्लॉक कर दिया गया है।"), Eff.saveSnapshot]) := by
      simp [handleTextInput, hst, isAdmin, hadm, hadm2, ownerWizard, isOwner, howner,
        hparse, hnor]
    exact ⟨heq, by rw [heq]; exact mem_pySetAdd _ _⟩

/-- C9 witness: owner 5 of `gA` blocking admin 9 is rejected with the block
list unchanged; blocking regular user 42 adds 42 and writes the snapshot. -/
theorem c9_block_wizard_witness :
    (handleTextInput (fun _ => true) gA ⟨some .awaitingBlockUserId, none, none⟩ 5 "9"
      = (gA, ctxEmpty,
          [Eff.replyText "आप किसी एडमिन या मालिक को ब्लॉक नहीं कर सकते।",
            Eff.saveSnapshot])) ∧
    (handleTextInput (fun _ => true) gA ⟨some .awaitingBlockUserId, none, none⟩ 5 "42"
      = ({ gA with blockedUserIds := pySetAdd gA.blockedUserIds 42 },
          ctxEmpty,
          [Eff.replyText ("उपयोगकर्ता " ++ pyStrInt 42
            ++ " को सफलतापूर्वक ब्लॉक कर दिया गया है।"), Eff.saveSnapshot]) ∧
      42 ∈ (handleTextInput (fun _ => true) gA
        ⟨some .awaitingBlockUserId, none, none⟩ 5 "42").1.blockedUserIds) :=
  ⟨(c9_block_wizard (fun _ => true) gA ⟨some .awaitingBlockUserId, none, none⟩
      5 "9" 9 (by decide) (by decide) rfl (by decide)).1 (by decide),
   (c9_block_wizard (fun _ => true) gA ⟨some .awaitingBlockUserId, none, none⟩
      5 "42" 42 (by decide) (by decide) rfl (by decide)).2 (by decide)⟩

/-- C10: on `/start` from a non-blocked, non-owner, non-admin user for whom
the membership gate answers `false`, the cascading removal worker always
runs — for EVERY prior `USER_DATA` content: the handler upserts the user's
directory entry before the membership check, so the `user.id in USER_DATA`
condition guarding the kick always holds. -/
theorem c10_start_nonmember_always_kicks :
    ∀ (mem : MemOracle) (banOk : Int → Int → Bool) (g : GState) (u : TgUser),
      u.id ∉ g.blockedUserIds → u.id ≠ g.ownerId → u.id ∉ g.adminIds →
      (isUserMemberOfChannel mem g u.id).1 = false →
      startCommand mem banOk g u
        = ({ g with userData := dictSet g.userData u.id ⟨u.fullName, u.username⟩ },
            (isUserMemberOfChannel mem g u.id).2
              ++ removeUserFromFreeChannels banOk
                   { g with userData := dictSet g.userData u.id ⟨u.fullName, u.username⟩ }
                   u.id
              ++ [Eff.replyHtml (welcomeHtml u.firstName)]) := by
  intro mem banOk g u hb ho ha hm
  have hg1 : isUserMemberOfChannel mem
      { g with userData := dictSet g.userData u.id ⟨u.fullName, u.username⟩ } u.id
      = isUserMemberOfChannel mem g u.id := rfl
  simp [startCommand, hb, isOwner, ho, isAdmin, ha, hg1, hm, dictHasKey_dictSet]

/-- C10 witness: user 8 has NO prior directory entry in `gFresh`, the
lookup oracle raises (gate fails closed), and the kick is still invoked —
its ban/unban calls for the catalogue appear in the effect list. -/
theorem c10_start_nonmember_always_kicks_witness :
    startCommand (fun _ _ => none) (fun _ _ => true)
        { gFresh with freeChannels := [(-1001, "A")] } ⟨8, "F", "Full", none⟩
      = ({ { gFresh with freeChannels := [(-1001, "A")] } with
            userData := dictSet ({ gFresh with freeChannels := [(-1001, "A")] }).userData 8
              ⟨"Full", none⟩ },
          (isUserMemberOfChannel (fun _ _ => none)
              { gFresh with freeChannels := [(-1001, "A")] } 8).2
            ++ removeUserFromFreeChannels (fun _ _ => true)
                 { { gFresh with freeChannels := [(-1001, "A")] } with
                   userData := dictSet ({ gFresh with freeChannels := [(-1001, "A")] }).userData 8
                     ⟨"Full", none⟩ }
                 8
            ++ [Eff.replyHtml (welcomeHtml "F")]) :=
  c10_start_nonmember_always_kicks (fun _ _ => none) (fun _ _ => true)
    { gFresh with freeChannels := [(-1001, "A")] } ⟨8, "F", "Full", none⟩
    (by decide) (by decide) (by decide) (by decide)

end Bot
